import Mathlib

/-!
Verification of the apihelper library (src/ApiHelper.py, src/auth/BearerAuth.py).

The library wraps the Python requests stack: a retry configuration
(`default_retry_strategy`), a timeout-setting adapter (`TimeoutHTTPAdapter`),
a session wrapper (`ApiHelper`) whose verb methods are decorated by
`http_exceptions`, and a bearer-token authenticator (`BearerAuth`).

The repository's own code is embedded directly from the source.  The retry,
hook, and URL-resolution machinery of the underlying libraries (urllib3,
requests, requests_toolbelt) is not part of the repository; it is modelled
from the specification's description of those collaborators, as noted on the
individual definitions.
-/

/-- An HTTP response as seen by the caller: status code, headers, body.
Headers are an ordered association list of name/value pairs. -/
structure Response where
  status : Nat
  headers : List (String × String)
  body : String
deriving DecidableEq

/-- The exception kinds handled by the `http_exceptions` decorator in
src/ApiHelper.py (lines 78-89): `requests.exceptions.HTTPError`,
`ConnectionError`, `Timeout`, `RequestException`, `RequestsWarning`, and
`urllib3.exceptions.MaxRetryError`.  Each carries its message detail. -/
inductive HttpExc where
  | httpError (detail : String)
  | connectionError (detail : String)
  | timeout (detail : String)
  | requestException (detail : String)
  | requestsWarning (detail : String)
  | maxRetryError (detail : String)
deriving DecidableEq

/-- The detail string carried by an exception. -/
def excDetail : HttpExc → String
  | .httpError d => d
  | .connectionError d => d
  | .timeout d => d
  | .requestException d => d
  | .requestsWarning d => d
  | .maxRetryError d => d

/-- The fixed message label printed by the matching `except` branch of
`http_exceptions` for each exception kind (src/ApiHelper.py lines 78-89). -/
def excLabel : HttpExc → String
  | .httpError _ => "Http Error: "
  | .connectionError _ => "Error Connecting: "
  | .timeout _ => "Timeout Error: "
  | .requestException _ => "Generic Request Exception: "
  | .requestsWarning _ => "HTTP: Request warning encountered: "
  | .maxRetryError _ => "HTTP: Max retries reached, request failed: "

/-- The full message printed for an exception: its branch label followed by
the error detail, mirroring the f-strings in `http_exceptions`. -/
def excMessage (e : HttpExc) : String := excLabel e ++ excDetail e

/-- The `http_exceptions` decorator (src/ApiHelper.py lines 69-97).
`wrapper_result` is initialised to `False`; the wrapped function's result is
assigned on success; every listed exception kind is caught and printed.  The
first component models the returned value (`none` is the falsy `False`
sentinel), the second the printed messages. -/
def http_exceptions {α β : Type} (func : α → Except HttpExc β) (a : α) :
    Option β × List String :=
  match func a with
  | Except.ok b => (some b, [])
  | Except.error e => (none, [excMessage e])

/-- The urllib3 `Retry` configuration record, with the fields set by
src/ApiHelper.py lines 56-65.  The float `backoff_factor` is modelled as a
rational. -/
structure Retry where
  total : Nat
  redirect : Nat
  backoff_factor : ℚ
  status_forcelist : List Nat
  allowed_methods : List String
  respect_retry_after_header : Bool
deriving DecidableEq

/-- The retry strategy constructed in src/ApiHelper.py lines 56-65:
`Retry(total=3, redirect=16, backoff_factor=0.3,
status_forcelist=[429, 500, 502, 503, 504], allowed_methods=[...all verbs...],
respect_retry_after_header=True)`. -/
def default_retry_strategy : Retry :=
  { total := 3
  , redirect := 16
  , backoff_factor := 3 / 10
  , status_forcelist := [429, 500, 502, 503, 504]
  , allowed_methods :=
      ["HEAD", "GET", "PUT", "POST", "PATCH", "DELETE", "OPTIONS", "TRACE"]
  , respect_retry_after_header := true }

/-- Modelled from the spec: upper bound on a computed backoff delay,
documented for the external urllib3 `Retry` collaborator (never reached with
the repository's configuration). -/
def BACKOFF_MAX : ℚ := 120

/-- Modelled from the spec: the inter-retry delay of the external urllib3
`Retry` collaborator, per the specification §4.1: delay
`backoff_factor * 2 ^ (attempt - 1)` between attempts, with the delay before
the first retry omitted.  `consecutiveErrors` counts the failures so far. -/
def Retry.get_backoff_time (p : Retry) (consecutiveErrors : Nat) : ℚ :=
  if consecutiveErrors ≤ 1 then 0
  else min BACKOFF_MAX (p.backoff_factor * 2 ^ (consecutiveErrors - 1))

/-- Lower-casing of a string, character by character. -/
def lowerStr (s : String) : String := String.mk (s.data.map Char.toLower)

/-- Case-insensitive header lookup, modelling the case-insensitive header
dictionaries of the requests/urllib3 stack: the first entry whose name
matches up to case. -/
def ciGet (hs : List (String × String)) (key : String) : Option String :=
  match hs with
  | [] => none
  | (k, v) :: rest => if lowerStr k == lowerStr key then some v else ciGet rest key

/-- Decimal value of a digit list, accumulator style. -/
def digitsVal : List Char → Nat → Option Nat
  | [], acc => some acc
  | c :: cs, acc =>
    if c.isDigit then digitsVal cs (acc * 10 + (c.toNat - 48)) else none

/-- Parsing of a non-empty all-digit string as a natural number. -/
def strToNat (s : String) : Option Nat :=
  match s.data with
  | [] => none
  | l => digitsVal l 0

/-- The value of a response's `Retry-After` header, read as a number of
seconds (only the integral form of the header is modelled). -/
def Response.retry_after (r : Response) : Option Nat :=
  match ciGet r.headers "Retry-After" with
  | none => none
  | some s => strToNat s

/-- Modelled from the spec: eligibility of a response for retry by the
external retry machinery, per the specification §4.1 and §3: the status code
is in `retryable_status_codes` and the method is in `retryable_methods`. -/
def Retry.is_retry (p : Retry) (method : String) (status : Nat) : Bool :=
  decide (method ∈ p.allowed_methods) && decide (status ∈ p.status_forcelist)

/-- Modelled from the spec: the delay slept before a retry of a response,
per the specification §4.1: the computed backoff, overridden by the value of
a present `Retry-After` header when `honor_retry_after_header` is true. -/
def Retry.sleep_duration (p : Retry) (r : Response) (consecutiveErrors : Nat) : ℚ :=
  if p.respect_retry_after_header then
    match r.retry_after with
    | some t => if t = 0 then p.get_backoff_time consecutiveErrors else (t : ℚ)
    | none => p.get_backoff_time consecutiveErrors
  else p.get_backoff_time consecutiveErrors

/-- The outcome of one transport round trip: a response, or a transport-level
failure (connection refused, DNS failure, timeout). -/
inductive AttemptOutcome where
  | resp (r : Response)
  | exc (e : HttpExc)
deriving DecidableEq

/-- Modelled from the spec: the retry loop run by the mounted adapter for one
logical request.  `outcomes` gives the result of each successive transport
attempt, `errs` counts the failures so far, and the second argument is the
remaining retry budget (initially `total`; the budget-exhausting failure
raises `MaxRetryError`, as documented in src/ApiHelper.py lines 26-28).  The
first component is the raised exception or the returned response; the second
lists the delays slept before retries, in order. -/
def adapterSend (p : Retry) (method : String) (outcomes : Nat → AttemptOutcome) :
    Nat → Nat → Except HttpExc Response × List ℚ
  | errs, 0 =>
    match outcomes errs with
    | AttemptOutcome.exc e =>
      (Except.error (HttpExc.maxRetryError (excDetail e)), [])
    | AttemptOutcome.resp r =>
      if p.is_retry method r.status then
        (Except.error (HttpExc.maxRetryError "too many error responses"), [])
      else (Except.ok r, [])
  | errs, n + 1 =>
    match outcomes errs with
    | AttemptOutcome.exc _ =>
      let rest := adapterSend p method outcomes (errs + 1) n
      (rest.1, p.get_backoff_time (errs + 1) :: rest.2)
    | AttemptOutcome.resp r =>
      if p.is_retry method r.status then
        let rest := adapterSend p method outcomes (errs + 1) n
        (rest.1, p.sleep_duration r (errs + 1) :: rest.2)
      else (Except.ok r, [])

/-- Modelled from the spec: `requests.Response.raise_for_status`, called by
the session's response hook: raises `HTTPError` for a 4xx client error or a
5xx server error, returns `None` otherwise. -/
def raise_for_status (r : Response) : Except HttpExc (Option Response) :=
  if 400 ≤ r.status ∧ r.status < 500 then
    Except.error (HttpExc.httpError (toString r.status ++ " Client Error"))
  else if 500 ≤ r.status ∧ r.status < 600 then
    Except.error (HttpExc.httpError (toString r.status ++ " Server Error"))
  else Except.ok none

/-- The response hook assigned to the session (src/ApiHelper.py lines
138-139): it returns `response.raise_for_status()`. -/
def assert_status_hook (response : Response) : Except HttpExc (Option Response) :=
  raise_for_status response

/-- One verb call through the configured session: the adapter's retry loop,
followed by dispatch of the response hook (a hook returning `None` leaves the
response unchanged, per the requests hook contract).  The second component is
the list of retry delays slept. -/
def sessionSend (p : Retry) (method : String) (outcomes : Nat → AttemptOutcome) :
    Except HttpExc Response × List ℚ :=
  ((match (adapterSend p method outcomes 0 p.total).1 with
    | Except.error e => Except.error e
    | Except.ok r =>
      match assert_status_hook r with
      | Except.error e => Except.error e
      | Except.ok none => Except.ok r
      | Except.ok (some changed) => Except.ok changed),
   (adapterSend p method outcomes 0 p.total).2)

/-- A verb method of `ApiHelper`: the session call wrapped by the
`http_exceptions` decorator.  Every `ApiHelper` instance mounts adapters
carrying `default_retry_strategy` (src/ApiHelper.py lines 149-150), so the
session always uses the default policy. -/
def verbCall (method : String) (outcomes : Nat → AttemptOutcome) :
    Option Response × List String :=
  http_exceptions (fun o => (sessionSend default_retry_strategy method o).1) outcomes

/-- `ApiHelper.get` (src/ApiHelper.py lines 173-175). -/
def ApiHelper.get : (Nat → AttemptOutcome) → Option Response × List String :=
  verbCall "GET"

/-- `ApiHelper.options` (src/ApiHelper.py lines 177-179). -/
def ApiHelper.options : (Nat → AttemptOutcome) → Option Response × List String :=
  verbCall "OPTIONS"

/-- `ApiHelper.head` (src/ApiHelper.py lines 181-183). -/
def ApiHelper.head : (Nat → AttemptOutcome) → Option Response × List String :=
  verbCall "HEAD"

/-- `ApiHelper.post` (src/ApiHelper.py lines 185-189). -/
def ApiHelper.post : (Nat → AttemptOutcome) → Option Response × List String :=
  verbCall "POST"

/-- `ApiHelper.put` (src/ApiHelper.py lines 191-193). -/
def ApiHelper.put : (Nat → AttemptOutcome) → Option Response × List String :=
  verbCall "PUT"

/-- `ApiHelper.patch` (src/ApiHelper.py lines 195-197). -/
def ApiHelper.patch : (Nat → AttemptOutcome) → Option Response × List String :=
  verbCall "PATCH"

/-- `ApiHelper.delete` (src/ApiHelper.py lines 199-201). -/
def ApiHelper.delete : (Nat → AttemptOutcome) → Option Response × List String :=
  verbCall "DELETE"

/-- `REQUEST_TIMEOUT` (src/ApiHelper.py line 19): the default timeout of 5
seconds for HTTP requests. -/
def REQUEST_TIMEOUT : ℚ := 5

/-- The `TimeoutHTTPAdapter` class (src/ApiHelper.py lines 100-118): an HTTP
adapter carrying a per-session timeout and the mounted retry strategy. -/
structure TimeoutHTTPAdapter where
  timeout : ℚ
  max_retries : Retry
deriving DecidableEq

/-- `TimeoutHTTPAdapter.__init__` (src/ApiHelper.py lines 107-112): the
timeout is `REQUEST_TIMEOUT` unless a `timeout` keyword argument is supplied,
in which case that value is used. -/
def TimeoutHTTPAdapter.make (timeoutArg : Option ℚ) (max_retries : Retry) :
    TimeoutHTTPAdapter :=
  { timeout := timeoutArg.getD REQUEST_TIMEOUT, max_retries := max_retries }

/-- `TimeoutHTTPAdapter.send` (src/ApiHelper.py lines 114-118): the effective
timeout of a request is the per-call `timeout` keyword argument when one is
present, and the adapter's own timeout otherwise. -/
def TimeoutHTTPAdapter.send (a : TimeoutHTTPAdapter) (timeoutArg : Option ℚ) : ℚ :=
  match timeoutArg with
  | none => a.timeout
  | some t => t

/-- A prepared outgoing request: method, URL, headers, body. -/
structure PreparedRequest where
  method : String
  url : String
  headers : List (String × String)
  body : String
deriving DecidableEq

/-- Case-insensitive header update, modelling the case-insensitive header
dictionary of requests: the first entry whose name matches up to case is
overwritten in place (storing the new spelling of the name); otherwise the
entry is appended. -/
def ciSet (hs : List (String × String)) (key value : String) :
    List (String × String) :=
  match hs with
  | [] => [(key, value)]
  | (k, v) :: rest =>
    if lowerStr k == lowerStr key then (key, value) :: rest
    else (k, v) :: ciSet rest key value

/-- The `BearerAuth` class (src/auth/BearerAuth.py): holds the token given at
construction. -/
structure BearerAuth where
  token : String
deriving DecidableEq

/-- `BearerAuth.__call__` (src/auth/BearerAuth.py lines 20-33): sets the
request's `Authorization` header to `"Bearer " + token` and returns the
passed request. -/
def BearerAuth.call (a : BearerAuth) (r : PreparedRequest) : PreparedRequest :=
  { r with headers := ciSet r.headers "Authorization" ("Bearer " ++ a.token) }

/-- The session state built by `ApiHelper.__init__` (src/ApiHelper.py lines
134-157): the optional base URL of the session, the adapters mounted by URL
scheme, and the optional authenticator.  The response-hook assignment of line
153 is embedded in `sessionSend` via `assert_status_hook`. -/
structure ApiHelper where
  base_url : Option String
  adapters : List (String × TimeoutHTTPAdapter)
  auth : Option BearerAuth
deriving DecidableEq

/-- `ApiHelper.__init__` (src/ApiHelper.py lines 134-157): a
`BaseUrlSession` is started only when `baseurl` is truthy; a
`TimeoutHTTPAdapter` carrying `default_retry_strategy` is mounted for both
the `https://` and the `http://` prefixes; the authenticator is attached when
given. -/
def ApiHelper.init (baseurl : Option String) (auth : Option BearerAuth) : ApiHelper :=
  { base_url :=
      match baseurl with
      | some b => if b = "" then none else some b
      | none => none
  , adapters :=
      [("https://", TimeoutHTTPAdapter.make none default_retry_strategy),
       ("http://", TimeoutHTTPAdapter.make none default_retry_strategy)]
  , auth := auth }

/-- Session-level authentication, modelling `requests.Session.prepare_request`:
when the session has an authenticator, it is applied to the outgoing request
and its return value is the request sent. -/
def ApiHelper.prepareAuth (s : ApiHelper) (r : PreparedRequest) : PreparedRequest :=
  match s.auth with
  | some a => BearerAuth.call a r
  | none => r

/-- A character allowed in a URL scheme. -/
def isSchemeChar (c : Char) : Bool :=
  c.isAlpha || c.isDigit || c = '+' || c = '-' || c = '.'

/-- Splits a character list at the first colon, returning the parts before
and after it. -/
def splitAtColon : List Char → Option (List Char × List Char)
  | [] => none
  | c :: cs =>
    if c = ':' then some ([], cs)
    else
      match splitAtColon cs with
      | none => none
      | some (a, b) => some (c :: a, b)

/-- Splits a character list at the first slash: the authority part before it
and the path from it on. -/
def spanAuthority : List Char → List Char × List Char
  | [] => ([], [])
  | c :: cs =>
    if c = '/' then ([], c :: cs)
    else
      let p := spanAuthority cs
      (c :: p.1, p.2)

/-- The components of an absolute hierarchical URL:
`scheme://authority/path`. -/
structure UrlParts where
  scheme : String
  authority : String
  path : String
deriving DecidableEq

/-- Modelled from the spec: parsing of an absolute hierarchical URL of the
form `scheme://authority/path` into its components (queries, fragments and
non-hierarchical schemes are outside the model's scope).  Any other string is
a relative reference. -/
def splitUrl (s : String) : Option UrlParts :=
  match splitAtColon s.data with
  | none => none
  | some (sch, rest) =>
    if sch ≠ [] && sch.all isSchemeChar && rest.take 2 = ['/', '/'] then
      let p := spanAuthority (rest.drop 2)
      some ⟨String.mk sch, String.mk p.1, String.mk p.2⟩
    else none

/-- The segments of a path, split at every slash. -/
def segsOf : List Char → List (List Char)
  | [] => [[]]
  | c :: rest =>
    if c = '/' then [] :: segsOf rest
    else
      match segsOf rest with
      | s :: ss => (c :: s) :: ss
      | [] => [[c]]

/-- The base path's directory part, used when merging a relative-path
reference: everything up to and including the last slash. -/
def upToLastSlash (p : String) : String :=
  String.mk ((p.data.reverse.dropWhile (fun c => c ≠ '/')).reverse)

/-- Modelled from the spec: resolution of a reference against a base URL
(`urllib.parse.urljoin` as used by `BaseUrlSession`), restricted to
hierarchical URLs without queries, fragments or dot-segments: an absolute
reference replaces the base; a network-path reference keeps the base scheme;
an absolute-path reference keeps the base scheme and authority; a relative
path is merged onto the base path's directory. -/
def urljoin (base url : String) : String :=
  match splitUrl url with
  | some _ => url
  | none =>
    match splitUrl base with
    | none => url
    | some b =>
      if url.data.take 2 = ['/', '/'] then b.scheme ++ ":" ++ url
      else if url.data.take 1 = ['/'] then b.scheme ++ "://" ++ b.authority ++ url
      else if url = "" then base
      else
        b.scheme ++ "://" ++ b.authority ++
          (if b.path = "" then "/" else upToLastSlash b.path) ++ url

/-- `BaseUrlSession.create_url` of requests_toolbelt, used when the session
was constructed with a base URL: joins the request URL onto the base URL. -/
def BaseUrlSession.create_url (base url : String) : String := urljoin base url

/-- The URL a verb call sends its request to: resolved against the session's
base URL when one was configured, the given URL unchanged otherwise. -/
def ApiHelper.requestUrl (s : ApiHelper) (url : String) : String :=
  match s.base_url with
  | some b => BaseUrlSession.create_url b url
  | none => url

/-! Helper lemmas. -/

/-- The delays slept by a verb call are exactly those of the adapter's retry
loop; the response hook sleeps nothing. -/
lemma sessionSend_sleeps (p : Retry) (method : String)
    (outcomes : Nat → AttemptOutcome) :
    (sessionSend p method outcomes).2 = (adapterSend p method outcomes 0 p.total).2 :=
  rfl

/-- A first-attempt response whose status is not in the force list is
returned by the retry loop at once, with no retry and no sleep. -/
lemma adapterSend_noRetry (method : String) (outcomes : Nat → AttemptOutcome)
    (r : Response) (h0 : outcomes 0 = AttemptOutcome.resp r)
    (hnf : r.status ∉ default_retry_strategy.status_forcelist) :
    adapterSend default_retry_strategy method outcomes 0 default_retry_strategy.total
      = (Except.ok r, []) := by
  have hir : default_retry_strategy.is_retry method r.status = false := by
    simp [Retry.is_retry, hnf]
  show adapterSend default_retry_strategy method outcomes 0 3 = _
  simp [adapterSend, h0, hir]

/-- Updating a header then reading it back, case-insensitively, yields the
written value. -/
lemma ciGet_ciSet_self (hs : List (String × String)) (key value : String) :
    ciGet (ciSet hs key value) key = some value := by
  induction hs with
  | nil => simp [ciGet, ciSet]
  | cons p rest ih =>
    obtain ⟨k, v⟩ := p
    by_cases h : lowerStr k == lowerStr key
    · simp [ciSet, h, ciGet]
    · simp [ciSet, h, ciGet, ih]

/-- Updating one header leaves the lookup of every differently-named header
unchanged. -/
lemma ciGet_ciSet_other (hs : List (String × String)) (key value q : String)
    (h : lowerStr key ≠ lowerStr q) :
    ciGet (ciSet hs key value) q = ciGet hs q := by
  induction hs with
  | nil => simp [ciGet, ciSet, h]
  | cons p rest ih =>
    obtain ⟨k, v⟩ := p
    by_cases hk : lowerStr k == lowerStr key
    · have hkq : (lowerStr k == lowerStr q) = false := by
        rw [beq_iff_eq] at hk
        simp [hk, h]
      simp [ciSet, hk, ciGet, h, hkq]
    · simp [ciSet, hk, ciGet, ih]

/-- Updating one header leaves the list of differently-named header entries
unchanged. -/
lemma ciSet_filter (hs : List (String × String)) (key value : String) :
    (ciSet hs key value).filter (fun p => lowerStr p.1 != lowerStr key)
      = hs.filter (fun p => lowerStr p.1 != lowerStr key) := by
  induction hs with
  | nil => simp [ciSet]
  | cons p rest ih =>
    obtain ⟨k, v⟩ := p
    by_cases hk : lowerStr k == lowerStr key
    · simp [ciSet, hk, List.filter, bne]
    · simp [ciSet, hk, List.filter, ih]

/-! Claims. -/

/-- Claim C1: every verb method never propagates a transport or HTTP-status
exception: whenever the underlying session call raises any of the handled
exception kinds, the decorated verb returns the uniform falsy result `none`
(carrying no information about the failure kind) and the logged message is
the branch label followed by the error detail. -/
theorem verb_uniform_failure (method : String) (outcomes : Nat → AttemptOutcome)
    (e : HttpExc)
    (h : (sessionSend default_retry_strategy method outcomes).1 = Except.error e) :
    verbCall method outcomes = (none, [excMessage e])
      ∧ excMessage e = excLabel e ++ excDetail e := by
  refine ⟨?_, rfl⟩
  simp [verbCall, http_exceptions, h]

/-- Concrete run for C1: a connection error on every transport attempt makes
`GET` return the falsy result with the max-retry message logged. -/
theorem verb_uniform_failure_witness :
    verbCall "GET" (fun _ => AttemptOutcome.exc (HttpExc.connectionError "connection refused"))
        = (none, [excMessage (HttpExc.maxRetryError "connection refused")])
      ∧ excMessage (HttpExc.maxRetryError "connection refused")
        = excLabel (HttpExc.maxRetryError "connection refused")
          ++ excDetail (HttpExc.maxRetryError "connection refused") :=
  verb_uniform_failure "GET"
    (fun _ => AttemptOutcome.exc (HttpExc.connectionError "connection refused"))
    (HttpExc.maxRetryError "connection refused") rfl

/-- Claim C2: when the transport's first attempt returns a response with a
2xx status, the verb method returns that response object unchanged (and logs
nothing). -/
theorem verb_2xx_passthrough (method : String) (outcomes : Nat → AttemptOutcome)
    (r : Response) (h0 : outcomes 0 = AttemptOutcome.resp r)
    (h1 : 200 ≤ r.status) (h2 : r.status < 300) :
    verbCall method outcomes = (some r, []) := by
  have hnf : r.status ∉ default_retry_strategy.status_forcelist := by
    intro hmem
    simp [default_retry_strategy] at hmem
    omega
  have hsend := adapterSend_noRetry method outcomes r h0 hnf
  have hrfs : raise_for_status r = Except.ok none := by
    unfold raise_for_status
    rw [if_neg (by omega), if_neg (by omega)]
  simp [verbCall, http_exceptions, sessionSend, hsend, assert_status_hook, hrfs]

/-- Concrete run for C2: a 200 response is passed through unchanged. -/
theorem verb_2xx_passthrough_witness :
    verbCall "GET" (fun _ => AttemptOutcome.resp ⟨200, [("Content-Type", "application/json")], "ok"⟩)
      = (some ⟨200, [("Content-Type", "application/json")], "ok"⟩, []) :=
  verb_2xx_passthrough "GET" _ _ rfl (by decide) (by decide)

/-- When every attempt yields a response whose status is in the force list,
the retry loop exhausts its budget and raises the max-retry error, whatever
the budget. -/
lemma adapterSend_allRetry (method : String) (outcomes : Nat → AttemptOutcome)
    (hm : method ∈ default_retry_strategy.allowed_methods)
    (h : ∀ i, ∃ r, outcomes i = AttemptOutcome.resp r
        ∧ r.status ∈ default_retry_strategy.status_forcelist) :
    ∀ n errs, (adapterSend default_retry_strategy method outcomes errs n).1
      = Except.error (HttpExc.maxRetryError "too many error responses") := by
  intro n
  induction n with
  | zero =>
    intro errs
    obtain ⟨r, hr, hst⟩ := h errs
    simp [adapterSend, hr, Retry.is_retry, hm, hst]
  | succ k ih =>
    intro errs
    obtain ⟨r, hr, hst⟩ := h errs
    simp [adapterSend, hr, Retry.is_retry, hm, hst, ih]

/-- Claim C3: a response with a 4xx/5xx status outside the retryable status
set is never retried (no delay is slept) and the call immediately returns the
failure signal instead of the raw response; a retryable status that persists
until the retry budget is exhausted produces the same failure signal. -/
theorem non_retryable_immediate_failure :
    (∀ (method : String) (outcomes : Nat → AttemptOutcome) (r : Response),
      outcomes 0 = AttemptOutcome.resp r →
      400 ≤ r.status → r.status < 600 →
      r.status ∉ default_retry_strategy.status_forcelist →
      (sessionSend default_retry_strategy method outcomes).2 = []
        ∧ (verbCall method outcomes).1 = none)
    ∧ (∀ (method : String) (outcomes : Nat → AttemptOutcome),
      method ∈ default_retry_strategy.allowed_methods →
      (∀ i, ∃ r, outcomes i = AttemptOutcome.resp r
          ∧ r.status ∈ default_retry_strategy.status_forcelist) →
      (verbCall method outcomes).1 = none) := by
  constructor
  · intro method outcomes r h0 h4 h6 hnf
    have hsend := adapterSend_noRetry method outcomes r h0 hnf
    constructor
    · rw [sessionSend_sleeps, hsend]
    · rcases Nat.lt_or_ge r.status 500 with h5 | h5
      · have hrfs : raise_for_status r
            = Except.error (HttpExc.httpError (toString r.status ++ " Client Error")) := by
          unfold raise_for_status
          rw [if_pos ⟨h4, h5⟩]
        simp [verbCall, http_exceptions, sessionSend, hsend, assert_status_hook, hrfs]
      · have hrfs : raise_for_status r
            = Except.error (HttpExc.httpError (toString r.status ++ " Server Error")) := by
          unfold raise_for_status
          rw [if_neg (by omega), if_pos ⟨h5, h6⟩]
        simp [verbCall, http_exceptions, sessionSend, hsend, assert_status_hook, hrfs]
  · intro method outcomes hm h
    have hloop := adapterSend_allRetry method outcomes hm h default_retry_strategy.total 0
    simp [verbCall, http_exceptions, sessionSend, hloop]

/-- Concrete runs for C3: a 404 is not retried and fails at once; a 503 on
every attempt fails after the budget is exhausted. -/
theorem non_retryable_immediate_failure_witness :
    ((sessionSend default_retry_strategy "GET"
        (fun _ => AttemptOutcome.resp ⟨404, [], "not found"⟩)).2 = []
      ∧ (verbCall "GET" (fun _ => AttemptOutcome.resp ⟨404, [], "not found"⟩)).1 = none)
    ∧ (verbCall "GET" (fun _ => AttemptOutcome.resp ⟨503, [], "unavailable"⟩)).1 = none :=
  ⟨non_retryable_immediate_failure.1 "GET"
      (fun _ => AttemptOutcome.resp ⟨404, [], "not found"⟩)
      ⟨404, [], "not found"⟩ rfl (by decide) (by decide) (by decide),
   non_retryable_immediate_failure.2 "GET"
      (fun _ => AttemptOutcome.resp ⟨503, [], "unavailable"⟩)
      (by decide) (fun i => ⟨⟨503, [], "unavailable"⟩, rfl, by decide⟩)⟩

/-- Counterexample to claim C4 as stated: with the default backoff factor and
every transport attempt failing, the delays actually slept before the three
retries are 0s, 0.6s and 1.2s — the delay before the first retry is 0, not
approximately 0.3s. -/
theorem retry_delays_counterexample :
    (sessionSend default_retry_strategy "GET"
        (fun _ => AttemptOutcome.exc (HttpExc.timeout "read timed out"))).2
      = [0, 3 / 5, 6 / 5]
    ∧ (sessionSend default_retry_strategy "GET"
        (fun _ => AttemptOutcome.exc (HttpExc.timeout "read timed out"))).2.head?
      ≠ some (3 / 10) := by
  constructor
  · show (adapterSend default_retry_strategy "GET" _ 0 3).2 = _
    norm_num [adapterSend, Retry.get_backoff_time, default_retry_strategy,
      BACKOFF_MAX, min_def]
  · intro h
    have h2 : (sessionSend default_retry_strategy "GET"
        (fun _ => AttemptOutcome.exc (HttpExc.timeout "read timed out"))).2.head?
        = some 0 := by
      show ((adapterSend default_retry_strategy "GET" _ 0 3).2).head? = _
      norm_num [adapterSend, Retry.get_backoff_time, default_retry_strategy,
        BACKOFF_MAX, min_def]
    rw [h] at h2
    norm_num at h2

/-- Claim C4 (amended): on persistent transport failure of a retryable
method, the session makes exactly three retries, sleeping the backoff
schedule 0s (the delay before the first retry is omitted), 0.6s and 1.2s —
`backoff_factor * 2 ^ (attempt - 1)` for the later retries — before
surfacing the uniform failure result. -/
theorem retry_backoff_schedule (method : String) (outcomes : Nat → AttemptOutcome)
    (_hm : method ∈ default_retry_strategy.allowed_methods)
    (h : ∀ i, ∃ e, outcomes i = AttemptOutcome.exc e) :
    (sessionSend default_retry_strategy method outcomes).2
        = [default_retry_strategy.get_backoff_time 1,
           default_retry_strategy.get_backoff_time 2,
           default_retry_strategy.get_backoff_time 3]
      ∧ default_retry_strategy.get_backoff_time 1 = 0
      ∧ default_retry_strategy.get_backoff_time 2 = 3 / 5
      ∧ default_retry_strategy.get_backoff_time 3 = 6 / 5
      ∧ (∀ k, 2 ≤ k → k ≤ 3 →
          default_retry_strategy.get_backoff_time k
            = default_retry_strategy.backoff_factor * 2 ^ (k - 1))
      ∧ (verbCall method outcomes).1 = none := by
  obtain ⟨e0, h0⟩ := h 0
  obtain ⟨e1, h1⟩ := h 1
  obtain ⟨e2, h2⟩ := h 2
  obtain ⟨e3, h3⟩ := h 3
  refine ⟨?_, ?_, ?_, ?_, ?_, ?_⟩
  · show (adapterSend default_retry_strategy method outcomes 0 3).2 = _
    simp [adapterSend, h0, h1, h2, h3]
  · norm_num [Retry.get_backoff_time]
  · norm_num [Retry.get_backoff_time, default_retry_strategy, BACKOFF_MAX, min_def]
  · norm_num [Retry.get_backoff_time, default_retry_strategy, BACKOFF_MAX, min_def]
  · intro k hk2 hk3
    interval_cases k <;>
      norm_num [Retry.get_backoff_time, default_retry_strategy, BACKOFF_MAX, min_def]
  · have hloop : (adapterSend default_retry_strategy method outcomes 0
        default_retry_strategy.total).1
        = Except.error (HttpExc.maxRetryError (excDetail e3)) := by
      show (adapterSend default_retry_strategy method outcomes 0 3).1 = _
      simp [adapterSend, h0, h1, h2, h3]
    simp [verbCall, http_exceptions, sessionSend, hloop]

/-- Concrete run for the amended C4: persistent read timeouts on `GET` sleep
0s, 0.6s and 1.2s and end in the failure result. -/
theorem retry_backoff_schedule_witness :
    (sessionSend default_retry_strategy "GET"
        (fun _ => AttemptOutcome.exc (HttpExc.timeout "read timed out"))).2
      = [0, 3 / 5, 6 / 5]
    ∧ (verbCall "GET"
        (fun _ => AttemptOutcome.exc (HttpExc.timeout "read timed out"))).1 = none := by
  have h := retry_backoff_schedule "GET"
    (fun _ => AttemptOutcome.exc (HttpExc.timeout "read timed out"))
    (by decide) (fun i => ⟨HttpExc.timeout "read timed out", rfl⟩)
  refine ⟨?_, h.2.2.2.2.2⟩
  rw [h.1, h.2.1, h.2.2.1, h.2.2.2.1]

/-- Claim C5: a session constructed by `new(baseURL, authenticator)` mounts,
for both the `https://` and the `http://` prefixes, an adapter carrying
exactly the default retry policy: 3 total retries, a redirect limit of 16,
backoff factor 0.3, retryable statuses 429, 500, 502, 503 and 504, all
standard HTTP methods retryable, and the `Retry-After` header honored. -/
theorem init_mounts_default_retry (baseurl : Option String) (auth : Option BearerAuth) :
    ((ApiHelper.init baseurl auth).adapters.lookup "https://"
        = some (TimeoutHTTPAdapter.make none default_retry_strategy)
      ∧ (ApiHelper.init baseurl auth).adapters.lookup "http://"
        = some (TimeoutHTTPAdapter.make none default_retry_strategy))
      ∧ default_retry_strategy.total = 3
      ∧ default_retry_strategy.redirect = 16
      ∧ default_retry_strategy.backoff_factor = 3 / 10
      ∧ default_retry_strategy.status_forcelist = [429, 500, 502, 503, 504]
      ∧ default_retry_strategy.allowed_methods
        = ["HEAD", "GET", "PUT", "POST", "PATCH", "DELETE", "OPTIONS", "TRACE"]
      ∧ default_retry_strategy.respect_retry_after_header = true :=
  ⟨⟨rfl, rfl⟩, rfl, rfl, rfl, rfl, rfl, rfl⟩

/-- Claim C6: when a 429 response carries a `Retry-After: 5` header, the
delay slept before the next retry is 5 seconds, overriding the computed
exponential backoff (which would have been 0 before the first retry). -/
theorem retry_after_override (method : String) (outcomes : Nat → AttemptOutcome)
    (r : Response)
    (hm : method ∈ default_retry_strategy.allowed_methods)
    (h0 : outcomes 0 = AttemptOutcome.resp r)
    (hs : r.status = 429)
    (hra : r.retry_after = some 5) :
    (sessionSend default_retry_strategy method outcomes).2.head? = some 5
      ∧ default_retry_strategy.get_backoff_time 1 = 0 := by
  have hir : default_retry_strategy.is_retry method r.status = true := by
    unfold Retry.is_retry
    rw [hs, decide_eq_true hm]
    decide
  have hsd : default_retry_strategy.sleep_duration r 1 = 5 := by
    norm_num [Retry.sleep_duration, hra, default_retry_strategy]
  constructor
  · rw [sessionSend_sleeps]
    show ((adapterSend default_retry_strategy method outcomes 0 3).2).head? = _
    simp [adapterSend, h0, hir, hsd]
  · norm_num [Retry.get_backoff_time]

/-- Concrete run for C6: a 429 with `Retry-After: 5`, followed by a 200,
sleeps exactly 5 seconds before the retry. -/
theorem retry_after_override_witness :
    (sessionSend default_retry_strategy "GET"
        (fun n => if n = 0 then AttemptOutcome.resp ⟨429, [("Retry-After", "5")], ""⟩
                  else AttemptOutcome.resp ⟨200, [], "ok"⟩)).2.head? = some 5
      ∧ default_retry_strategy.get_backoff_time 1 = 0 :=
  retry_after_override "GET"
    (fun n => if n = 0 then AttemptOutcome.resp ⟨429, [("Retry-After", "5")], ""⟩
              else AttemptOutcome.resp ⟨200, [], "ok"⟩)
    ⟨429, [("Retry-After", "5")], ""⟩ (by decide) rfl rfl (by decide)

/-- Claim C7: every adapter mounted by a constructed session resolves the
effective timeout of a request to the per-call override when one is given,
and to the 5-second session default `REQUEST_TIMEOUT` otherwise. -/
theorem adapter_timeout_default (baseurl : Option String) (auth : Option BearerAuth)
    (mount : String) (ad : TimeoutHTTPAdapter)
    (h : (mount, ad) ∈ (ApiHelper.init baseurl auth).adapters) :
    ad.send none = REQUEST_TIMEOUT ∧ REQUEST_TIMEOUT = 5
      ∧ ∀ t, ad.send (some t) = t := by
  have had : ad = TimeoutHTTPAdapter.make none default_retry_strategy := by
    simp [ApiHelper.init] at h
    rcases h with ⟨-, h⟩ | ⟨-, h⟩ <;> exact h
  subst had
  exact ⟨rfl, rfl, fun t => rfl⟩

/-- Concrete instance for C7: the mounted adapter yields 5 seconds with no
override and 10 seconds with `timeout=10`. -/
theorem adapter_timeout_default_witness :
    (TimeoutHTTPAdapter.make none default_retry_strategy).send none = 5
      ∧ (TimeoutHTTPAdapter.make none default_retry_strategy).send (some 10) = 10 := by
  have h := adapter_timeout_default none none "https://"
    (TimeoutHTTPAdapter.make none default_retry_strategy) (by simp [ApiHelper.init])
  exact ⟨by rw [h.1, h.2.1], h.2.2 10⟩

/-- Claim C8: a verb call on a session constructed with an absolute
hierarchical base URL and given an absolute-path reference (one slash, no
scheme, no dot-segments) issues its request to that path resolved against
the base URL: the base's scheme and authority followed by the path. -/
theorem base_url_resolution (base url : String) (b : UrlParts)
    (hb : splitUrl base = some b)
    (habs : url.data.take 1 = ['/'])
    (hpr : url.data.take 2 ≠ ['/', '/'])
    (hrel : splitUrl url = none)
    (_hnd : ∀ seg ∈ segsOf url.data, seg ≠ ['.'] ∧ seg ≠ ['.', '.']) :
    ApiHelper.requestUrl (ApiHelper.init (some base) none) url
      = b.scheme ++ "://" ++ b.authority ++ url := by
  have hbase : base ≠ "" := by
    intro hB
    rw [hB] at hb
    have hnone : splitUrl "" = none := by decide
    rw [hnone] at hb
    cases hb
  simp [ApiHelper.requestUrl, ApiHelper.init, hbase, BaseUrlSession.create_url,
    urljoin, hrel, hb, hpr, habs]

/-- Concrete instance for C8: base `https://api.example.com` with path
`/v1/users` resolves to `https://api.example.com/v1/users`. -/
theorem base_url_resolution_witness :
    ApiHelper.requestUrl (ApiHelper.init (some "https://api.example.com") none) "/v1/users"
      = "https://api.example.com/v1/users" := by
  have h := base_url_resolution "https://api.example.com" "/v1/users"
    ⟨"https", "api.example.com", ""⟩ (by decide) (by decide) (by decide)
    (by decide) (by decide)
  rw [h]
  decide

/-- Claim C9: a session constructed with a Bearer authenticator holding
token `t` sends every outgoing request with its `Authorization` header set
to `Bearer ` followed by `t`, and the request sent is exactly the
authenticator's return value. -/
theorem bearer_session_header (baseurl : Option String) (t : String)
    (r : PreparedRequest) :
    ciGet ((ApiHelper.init baseurl (some ⟨t⟩)).prepareAuth r).headers "Authorization"
        = some ("Bearer " ++ t)
      ∧ (ApiHelper.init baseurl (some ⟨t⟩)).prepareAuth r = BearerAuth.call ⟨t⟩ r := by
  refine ⟨?_, rfl⟩
  show ciGet (BearerAuth.call ⟨t⟩ r).headers "Authorization" = _
  simp [BearerAuth.call, ciGet_ciSet_self]

/-- Claim C10: applying the Bearer authenticator to a request returns the
same request with exactly one modification: the `Authorization` header entry
is set (added or overwritten, case-insensitively); the method, URL, body and
every other header entry are unchanged. -/
theorem bearer_frame (a : BearerAuth) (r : PreparedRequest) :
    (BearerAuth.call a r).method = r.method
      ∧ (BearerAuth.call a r).url = r.url
      ∧ (BearerAuth.call a r).body = r.body
      ∧ ciGet (BearerAuth.call a r).headers "Authorization"
        = some ("Bearer " ++ a.token)
      ∧ (BearerAuth.call a r).headers.filter
          (fun p => lowerStr p.1 != "authorization")
        = r.headers.filter (fun p => lowerStr p.1 != "authorization")
      ∧ ∀ q : String, lowerStr q ≠ "authorization" →
          ciGet (BearerAuth.call a r).headers q = ciGet r.headers q := by
  have hA : lowerStr "Authorization" = "authorization" := by decide
  refine ⟨rfl, rfl, rfl, ?_, ?_, ?_⟩
  · simp [BearerAuth.call, ciGet_ciSet_self]
  · have hf := ciSet_filter r.headers "Authorization" ("Bearer " ++ a.token)
    rw [hA] at hf
    exact hf
  · intro q hq
    exact ciGet_ciSet_other r.headers "Authorization" ("Bearer " ++ a.token) q
      (by rw [hA]; exact fun hh => hq hh.symm)

/-- Concrete instance for C10: tokens and an unrelated `Accept` header: the
`Accept` entry is untouched while `Authorization` is set. -/
theorem bearer_frame_witness :
    ciGet (BearerAuth.call ⟨"abc123"⟩
        ⟨"GET", "https://api.example.com/v1/users",
          [("Accept", "application/json")], ""⟩).headers "Accept"
      = ciGet [("Accept", "application/json")] "Accept"
    ∧ ciGet (BearerAuth.call ⟨"abc123"⟩
        ⟨"GET", "https://api.example.com/v1/users",
          [("Accept", "application/json")], ""⟩).headers "Authorization"
      = some "Bearer abc123" := by
  have h := bearer_frame ⟨"abc123"⟩
    ⟨"GET", "https://api.example.com/v1/users", [("Accept", "application/json")], ""⟩
  refine ⟨h.2.2.2.2.2 "Accept" (by decide), ?_⟩
  rw [h.2.2.2.1]
  decide
